import Mathlib

/-!
Shallow embedding of the gopher-parse-sitemap library (src/sitemap.go) and of
the walk-engine / materializer components its spec describes.

Conventions of the embedding:
  * An input byte stream (io.Reader) is modelled at the token level, as the
    list of top-level XML elements the tokenizer would deliver, together with
    an optional read error delivered after the listed elements (a stream that
    ends cleanly has tail error none, standing for EOF).  A read error is the
    outcome of a single read: once it has been delivered, the stream is
    exhausted and further reads see EOF.  This matches the io.Reader contract
    for one-shot streams, which is all the library ever has (files, HTTP
    bodies); no reader can be rewound.
  * Go errors are modelled by their dynamic type, because isTimeoutError in
    the source dispatches on the dynamic type (net.Error, then *url.Error).
    An error built by fmt.Errorf with a %v verb is a plain string error that
    implements neither interface; this is faithful to the source, which wraps
    every request failure that way.
  * Go panics (here: rand.Intn with argument 0 on an empty proxy pool) are a
    distinct outcome, not an error return.
  * The process-global, time-seeded random generator is modelled by an
    injected draw (the pick field of the network environment); rand.Intn n
    becomes pick % n, and Intn with n = 0 panics as in Go.
  * The HTTP stack is modelled by an environment giving the outcome of
    url.Parse, http.NewRequest and client.Do; functions return, next to the
    Go result, the trace of HTTP requests actually issued (client
    configuration, URL, User-Agent), so that claims about attempts and
    fallback are statements about that trace.
  * Timestamps are kept abstract (the raw lastmod text); change-frequency
    text is kept as delivered; priority is a rational number standing for the
    real-valued priority field.
-/

namespace Sitemap

/-- Change frequency is a type alias for string, as in the source. -/
abbrev Frequency := String

/-- A page is changed always. -/
def Always : Frequency := "always"

/-- A page is changed every hour. -/
def Hourly : Frequency := "hourly"

/-- A page is changed every day. -/
def Daily : Frequency := "daily"

/-- A page is changed every week. -/
def Weekly : Frequency := "weekly"

/-- A page is changed every month. -/
def Monthly : Frequency := "monthly"

/-- A page is changed every year. -/
def Yearly : Frequency := "yearly"

/-- A page is changed never. -/
def Never : Frequency := "never"

/-- Go error values relevant to this library, classified by dynamic type:
netTimeout and netOther are net.Error values (Timeout() true / false),
urlError is a *url.Error wrapping an inner error, stringErr is a plain
string error as produced by fmt.Errorf with %v verbs (it implements neither
net.Error nor *url.Error), validationErr is a materializer validation
failure. -/
inductive GoErr where
  | netTimeout (msg : String)
  | netOther (msg : String)
  | urlError (inner : GoErr)
  | stringErr (msg : String)
  | validationErr (msg : String)
deriving DecidableEq, Repr

/-- Models err.Error(): the message text of a Go error value. -/
def errString : GoErr → String
  | .netTimeout msg => msg
  | .netOther msg => msg
  | .urlError inner => "Get: " ++ errString inner
  | .stringErr msg => msg
  | .validationErr msg => msg

/-- The immutable page record handed to consumers (the sealed implementation
behind the Entry interface of the source). -/
structure SitemapEntry where
  location : String
  lastModified : Option String
  changeFrequency : Option Frequency
  priority : Rat
deriving DecidableEq, Repr

/-- GetLocation returns URL of the page. -/
def SitemapEntry.GetLocation (e : SitemapEntry) : String := e.location

/-- GetLastModified returns the (abstracted) last-modification timestamp. -/
def SitemapEntry.GetLastModified (e : SitemapEntry) : Option String := e.lastModified

/-- GetChangeFrequency returns how frequently the page is changed. -/
def SitemapEntry.GetChangeFrequency (e : SitemapEntry) : Option Frequency := e.changeFrequency

/-- GetPriority returns the priority of the page. -/
def SitemapEntry.GetPriority (e : SitemapEntry) : Rat := e.priority

/-- The immutable index record handed to index consumers (the sealed
implementation behind the IndexEntry interface of the source). -/
structure SitemapIndexEntry where
  location : String
  lastModified : Option String
deriving DecidableEq, Repr

/-- GetLocation returns URL of a sitemap file. -/
def SitemapIndexEntry.GetLocation (e : SitemapIndexEntry) : String := e.location

/-- GetLastModified returns the (abstracted) last-modification timestamp. -/
def SitemapIndexEntry.GetLastModified (e : SitemapIndexEntry) : Option String := e.lastModified

/-- The raw child text of one url element, as the structured-decode facility
of the tokenizer delivers it: each child is present or absent. -/
structure RawEntryElem where
  loc : Option String
  lastmod : Option String
  changefreq : Option String
  priority : Option Rat
deriving DecidableEq, Repr

/-- The raw child text of one sitemap element of an index document. -/
structure RawIndexElem where
  loc : Option String
  lastmod : Option String
deriving DecidableEq, Repr

/-- A top-level element of a sitemap or sitemap-index document, as seen by
the token walk: a url element, a sitemap element, or any other element
(ignored by the handlers). -/
inductive XElem where
  | urlElem (raw : RawEntryElem)
  | sitemapElem (raw : RawIndexElem)
  | otherElem (elemName : String)
deriving DecidableEq, Repr

/-- A one-shot input stream: the elements not yet consumed, and an optional
read error delivered once, after the listed elements (none stands for a
clean EOF). -/
structure ByteStream where
  content : List XElem
  tailErr : Option GoErr
deriving DecidableEq, Repr

/-- Models ioutil.ReadAll on the stream: it consumes every remaining element
(and the pending read error, which it reports); what is left is an exhausted
stream that only reports EOF.  Returns ((data, read error), stream after the
call). -/
def readAll (s : ByteStream) : (List XElem × Option GoErr) × ByteStream :=
  ((s.content, s.tailErr), { content := [], tailErr := none })

/-- EntryConsumer represents a consumer of parsed sitemap entries; none is a
nil error return. -/
abbrev EntryConsumer := SitemapEntry → Option GoErr

/-- IndexEntryConsumer represents a consumer of parsed index entries. -/
abbrev IndexEntryConsumer := SitemapIndexEntry → Option GoErr

/-- The default priority 0.5, written as the reduced fraction 1 over 2 so
that it evaluates by kernel reduction. -/
def defaultPriority : Rat := ⟨1, 2, by decide, Nat.coprime_one_left 2⟩

/-- Modelled from the spec: the entry materializer (entryParser of the
repository, not under src/).  Decodes a url element already split into child
fields, applies the field rules of spec section 3 (location required and
non-empty; priority defaults to 0.5 when absent and must lie in [0, 1]),
and either fails with a validation error without calling the consumer, or
constructs the immutable record. -/
def materializeEntry (raw : RawEntryElem) : Except GoErr SitemapEntry :=
  match raw.loc with
  | none => .error (.validationErr "url record: required field loc is missing")
  | some l =>
    if l = "" then .error (.validationErr "url record: required field loc is empty")
    else
      let pr := raw.priority.getD defaultPriority
      if pr < 0 ∨ 1 < pr then .error (.validationErr "url record: priority out of range")
      else .ok { location := l, lastModified := raw.lastmod,
                 changeFrequency := raw.changefreq, priority := pr }

/-- Modelled from the spec: the index-entry materializer (indexEntryParser of
the repository, not under src/).  Location is required and non-empty. -/
def materializeIndexEntry (raw : RawIndexElem) : Except GoErr SitemapIndexEntry :=
  match raw.loc with
  | none => .error (.validationErr "sitemap record: required field loc is missing")
  | some l =>
    if l = "" then .error (.validationErr "sitemap record: required field loc is empty")
    else .ok { location := l, lastModified := raw.lastmod }

/-- Modelled from the spec: the element handler for page sitemaps.  A url
element is materialized and, on success, delivered to the consumer, whose
error is propagated verbatim; any other element is ignored.  The first
component records the consumer invocations this element caused. -/
def entryParser (consumer : EntryConsumer) (el : XElem) :
    List SitemapEntry × Except GoErr Unit :=
  match el with
  | .urlElem raw =>
    match materializeEntry raw with
    | .error e => ([], .error e)
    | .ok entry =>
      match consumer entry with
      | some e => ([entry], .error e)
      | none => ([entry], .ok ())
  | _ => ([], .ok ())

/-- Modelled from the spec: the element handler for sitemap-index documents. -/
def indexEntryParser (consumer : IndexEntryConsumer) (el : XElem) :
    List SitemapIndexEntry × Except GoErr Unit :=
  match el with
  | .sitemapElem raw =>
    match materializeIndexEntry raw with
    | .error e => ([], .error e)
    | .ok entry =>
      match consumer entry with
      | some e => ([entry], .error e)
      | none => ([entry], .ok ())
  | _ => ([], .ok ())

/-- Modelled from the spec: the token walk (parseLoop of the repository, not
under src/), on a stream given as remaining elements plus pending read
error.  Each element is handed to the handler; a handler error aborts the
walk at once; end of stream is success; a pending read error is surfaced.
The first component is the concatenated trace of consumer invocations. -/
def parseLoopAux {α : Type} (handler : XElem → List α × Except GoErr Unit) :
    List XElem → Option GoErr → List α × Except GoErr Unit
  | [], none => ([], .ok ())
  | [], some e => ([], .error e)
  | el :: rest, te =>
    match handler el with
    | (tr, .error e) => (tr, .error e)
    | (tr, .ok _) =>
      let r := parseLoopAux handler rest te
      (tr ++ r.1, r.2)

/-- The token walk on a byte stream. -/
def parseLoop {α : Type} (s : ByteStream) (handler : XElem → List α × Except GoErr Unit) :
    List α × Except GoErr Unit :=
  parseLoopAux handler s.content s.tailErr

/-- Parse, as written in src/sitemap.go: it first reads the WHOLE stream with
ioutil.ReadAll (the result and its error are used only to decide whether to
log, which the embedding omits; the error is discarded), then runs the token
walk on the same, now exhausted, reader. -/
def Parse (s : ByteStream) (consumer : EntryConsumer) :
    List SitemapEntry × Except GoErr Unit :=
  let r := readAll s
  parseLoop r.2 (entryParser consumer)

/-- ParseIndex, as written in src/sitemap.go: it hands the reader directly to
the token walk (no preliminary read). -/
def ParseIndex (s : ByteStream) (consumer : IndexEntryConsumer) :
    List SitemapIndexEntry × Except GoErr Unit :=
  parseLoop s (indexEntryParser consumer)

/-- An http.Client together with its http.Transport, restricted to the fields
the source sets.  tlsHandshakeTimeout and timeout are in seconds; the Go zero
value 0 for tlsHandshakeTimeout means the field was left unset (no handshake
timeout). -/
structure ClientConfig where
  proxy : Option String
  tlsHandshakeTimeout : Nat
  insecureSkipVerify : Bool
  timeout : Nat
deriving DecidableEq, Repr

/-- One HTTP request as issued: the client it went through, the target URL
and the User-Agent header. -/
structure Request where
  client : ClientConfig
  url : String
  userAgent : String
deriving DecidableEq, Repr

/-- Outcome of a call in the retrieval layer: normal return with nil error,
normal return with an error, or a run-time panic (which in Go aborts the call
without returning). -/
inductive Outcome where
  | ok
  | err (e : GoErr)
  | panicked (msg : String)
deriving DecidableEq, Repr

/-- The outcome of client.Do: a transport-level failure, or a response whose
body is a byte stream. -/
inductive DoRes where
  | fail (e : GoErr)
  | success (body : ByteStream)

/-- The ambient network world: the failure behaviour of url.Parse and
http.NewRequest on each string, the outcome of client.Do for each client
configuration, URL and User-Agent, and the draw of the process random
generator used for proxy selection. -/
structure Net where
  urlParseErr : String → Option String
  newRequestErr : String → Option String
  doResult : ClientConfig → String → String → DoRes
  pick : Nat

/-- The message of the run-time panic raised by rand.Intn when its argument
is not positive, as on an empty proxy pool. -/
def intnPanicMsg : String := "invalid argument to Intn"

/-- The proxy chosen by randGenerator.Intn(len(proxyServers)) indexing into
the pool, with the injected random draw. -/
def selectProxy (pick : Nat) (proxyServers : List String)
    (h : ¬ proxyServers.length = 0) : String :=
  proxyServers.get ⟨pick % proxyServers.length, Nat.mod_lt _ (Nat.pos_of_ne_zero h)⟩

/-- Models err.(net.Error): whether the dynamic type of the error value
implements the net.Error interface.  *url.Error does; a plain string error
does not. -/
def isNetError : GoErr → Bool
  | .netTimeout _ => true
  | .netOther _ => true
  | .urlError _ => true
  | .stringErr _ => false
  | .validationErr _ => false

/-- Models calling Timeout() on an error value: a url.Error delegates to the
error it wraps. -/
def timeoutFlag : GoErr → Bool
  | .netTimeout _ => true
  | .urlError inner => timeoutFlag inner
  | _ => false

/-- isTimeoutError, as in src/sitemap.go: first the err.(net.Error) type
assertion with Timeout(), then the *url.Error assertion with a net.Error
check on the wrapped error. -/
def isTimeoutError (e : GoErr) : Bool :=
  if isNetError e && timeoutFlag e then true
  else
    match e with
    | .urlError inner => isNetError inner && timeoutFlag inner
    | _ => false

/-- makeRequest, as in src/sitemap.go: build the request (failure is wrapped
by fmt.Errorf with %v into a plain string error), issue it through the given
client (failure likewise wrapped with %v, so the wrapped error loses its
net.Error / *url.Error dynamic type), and on success hand the response body
to Parse.  The request trace records the requests actually sent. -/
def makeRequest (env : Net) (client : ClientConfig) (sitemapURL userAgent : String)
    (consumer : EntryConsumer) : List Request × Outcome :=
  match env.newRequestErr sitemapURL with
  | some m => ([], .err (.stringErr ("failed to create request: " ++ m)))
  | none =>
    match env.doResult client sitemapURL userAgent with
    | .fail e =>
      ([⟨client, sitemapURL, userAgent⟩],
        .err (.stringErr ("failed to make request: " ++ errString e)))
    | .success body =>
      ([⟨client, sitemapURL, userAgent⟩],
        match (Parse body consumer).2 with
        | .ok _ => .ok
        | .error e => .err e)

/-- The client parseWithProxy builds: routed through the selected proxy, 10 s
TLS handshake timeout, certificate verification disabled, 20 s overall
timeout. -/
def proxiedPageClient (selectedProxy : String) : ClientConfig :=
  { proxy := some selectedProxy, tlsHandshakeTimeout := 10,
    insecureSkipVerify := true, timeout := 20 }

/-- The client parseWithoutProxy builds: no proxy, 10 s TLS handshake
timeout, certificate verification disabled, 20 s overall timeout. -/
def directPageClient : ClientConfig :=
  { proxy := none, tlsHandshakeTimeout := 10,
    insecureSkipVerify := true, timeout := 20 }

/-- The client ParseIndexFromSite builds: routed through the selected proxy,
NO TLS handshake timeout set, certificate verification disabled, 60 s
overall timeout. -/
def indexClient (selectedProxy : String) : ClientConfig :=
  { proxy := some selectedProxy, tlsHandshakeTimeout := 0,
    insecureSkipVerify := true, timeout := 60 }

/-- parseWithProxy, as in src/sitemap.go: select a random proxy from the pool
(rand.Intn panics when the pool is empty), parse its URL (failure wrapped
with %v), then issue the request through the proxied page client. -/
def parseWithProxy (env : Net) (sitemapURL : String) (proxyServers : List String)
    (userAgent : String) (consumer : EntryConsumer) : List Request × Outcome :=
  if h : proxyServers.length = 0 then ([], .panicked intnPanicMsg)
  else
    let selectedProxy := selectProxy env.pick proxyServers h
    match env.urlParseErr selectedProxy with
    | some m => ([], .err (.stringErr ("failed to parse proxy URL: " ++ m)))
    | none => makeRequest env (proxiedPageClient selectedProxy) sitemapURL userAgent consumer

/-- parseWithoutProxy, as in src/sitemap.go. -/
def parseWithoutProxy (env : Net) (sitemapURL userAgent : String)
    (consumer : EntryConsumer) : List Request × Outcome :=
  makeRequest env directPageClient sitemapURL userAgent consumer

/-- ParseFromSite, as in src/sitemap.go: one proxied attempt; if it returns
an error recognized by isTimeoutError, one direct attempt; any other error
is returned as is.  A panic propagates. -/
def ParseFromSite (env : Net) (sitemapURL : String) (proxyServers : List String)
    (userAgent : String) (consumer : EntryConsumer) : List Request × Outcome :=
  let r := parseWithProxy env sitemapURL proxyServers userAgent consumer
  match r.2 with
  | .err e =>
    if isTimeoutError e then
      let r2 := parseWithoutProxy env sitemapURL userAgent consumer
      (r.1 ++ r2.1, r2.2)
    else r
  | _ => r

/-- ParseIndexFromSite, as in src/sitemap.go: its own inline copy of the
retrieval code.  It selects a random proxy exactly as parseWithProxy does
(rand.Intn panics on an empty pool), builds a client with a 60 s overall
timeout and no TLS handshake timeout, issues one request (failures wrapped
with %v), and on success hands the body to ParseIndex.  There is no timeout
check and no direct fallback. -/
def ParseIndexFromSite (env : Net) (sitemapURL : String) (proxyServers : List String)
    (userAgent : String) (consumer : IndexEntryConsumer) : List Request × Outcome :=
  if h : proxyServers.length = 0 then ([], .panicked intnPanicMsg)
  else
    let selectedProxy := selectProxy env.pick proxyServers h
    match env.urlParseErr selectedProxy with
    | some m => ([], .err (.stringErr ("failed to parse proxy URL: " ++ m)))
    | none =>
      match env.newRequestErr sitemapURL with
      | some m => ([], .err (.stringErr ("failed to create request: " ++ m)))
      | none =>
        match env.doResult (indexClient selectedProxy) sitemapURL userAgent with
        | .fail e =>
          ([⟨indexClient selectedProxy, sitemapURL, userAgent⟩],
            .err (.stringErr ("failed to make request: " ++ errString e)))
        | .success body =>
          ([⟨indexClient selectedProxy, sitemapURL, userAgent⟩],
            match (ParseIndex body consumer).2 with
            | .ok _ => .ok
            | .error e => .err e)

/-! Concrete fixtures used by the theorems below. -/

/-- A minimal well-formed url element: only the required loc child. -/
def urlRaw (l : String) : RawEntryElem :=
  { loc := some l, lastmod := none, changefreq := none, priority := none }

/-- The record a minimal url element materializes to. -/
def plainEntry (l : String) : SitemapEntry :=
  { location := l, lastModified := none, changeFrequency := none,
    priority := defaultPriority }

/-- A minimal well-formed sitemap element of an index document. -/
def indexRaw (l : String) : RawIndexElem := { loc := some l, lastmod := none }

/-- The record a minimal sitemap element materializes to. -/
def plainIndexEntry (l : String) : SitemapIndexEntry :=
  { location := l, lastModified := none }

/-- A consumer that accepts every record (returns nil). -/
def okConsumer : EntryConsumer := fun _ => none

/-- An index consumer that accepts every record. -/
def okIndexConsumer : IndexEntryConsumer := fun _ => none

/-- A consumer that aborts on the record for page c and accepts the rest. -/
def stopAtC : EntryConsumer :=
  fun e => if e.location = "https://x/c" then some (.stringErr "consumer abort") else none

/-- A concrete proxy endpoint. -/
def proxyA : String := "http://proxy.example:8080"

/-- A concrete sitemap URL. -/
def siteURL : String := "https://example.com/sitemap.xml"

/-- A concrete User-Agent value. -/
def uaString : String := "test-agent"

/-- The error client.Do reports on a timed-out request: a *url.Error
wrapping a network timeout. -/
def timeoutNet : GoErr := .urlError (.netTimeout "dial tcp: i/o timeout")

/-- A network in which every request times out at the transport. -/
def envTimeout : Net :=
  { urlParseErr := fun _ => none, newRequestErr := fun _ => none,
    doResult := fun _ _ _ => .fail timeoutNet, pick := 0 }

/-- A network in which every request succeeds with an empty document. -/
def envPlain : Net :=
  { urlParseErr := fun _ => none, newRequestErr := fun _ => none,
    doResult := fun _ _ _ => .success { content := [], tailErr := none }, pick := 0 }

/-- A network that accepts requests from a client with a 20 second overall
timeout and refuses the rest: it separates the page clients from the index
client. -/
def envSplit : Net :=
  { urlParseErr := fun _ => none, newRequestErr := fun _ => none,
    doResult := fun client _ _ =>
      if client.timeout = 20 then .success { content := [], tailErr := none }
      else .fail (.netOther "connection refused"),
    pick := 0 }

/-- A one-element page sitemap document. -/
def docA : ByteStream :=
  { content := [.urlElem (urlRaw "https://x/a")], tailErr := none }

/-- A two-element page sitemap document. -/
def docAB : ByteStream :=
  { content := [.urlElem (urlRaw "https://x/a"), .urlElem (urlRaw "https://x/b")],
    tailErr := none }

/-- A four-element page sitemap document; the third record is the one the
stopAtC consumer aborts on. -/
def docABCD : ByteStream :=
  { content := [.urlElem (urlRaw "https://x/a"), .urlElem (urlRaw "https://x/b"),
                .urlElem (urlRaw "https://x/c"), .urlElem (urlRaw "https://x/d")],
    tailErr := none }

/-! Shared lemmas about the materializers and the walk. -/

/-- The default priority is the rational number one half, that is 0.5. -/
theorem defaultPriority_eq_half : defaultPriority = 1 / 2 := by
  rw [defaultPriority, Rat.mk'_eq_divInt, Rat.divInt_eq_div]
  norm_num

/-- A successfully materialized page record has a non-empty location, a
priority inside the valid domain, and exactly the defaulted priority. -/
theorem materializeEntry_ok_props (raw : RawEntryElem) (e : SitemapEntry)
    (h : materializeEntry raw = .ok e) :
    e.location ≠ "" ∧ 0 ≤ e.priority ∧ e.priority ≤ 1 ∧
      e.priority = raw.priority.getD defaultPriority := by
  simp only [materializeEntry] at h
  split at h
  · exact absurd h (by simp)
  next l =>
    split at h
    · exact absurd h (by simp)
    next hne =>
      split at h
      · exact absurd h (by simp)
      next hrange =>
        injection h with h2
        subst h2
        push_neg at hrange
        exact ⟨hne, hrange.1, hrange.2, rfl⟩

/-- A successfully materialized index record has a non-empty location. -/
theorem materializeIndexEntry_ok_props (raw : RawIndexElem) (e : SitemapIndexEntry)
    (h : materializeIndexEntry raw = .ok e) : e.location ≠ "" := by
  simp only [materializeIndexEntry] at h
  split at h
  · exact absurd h (by simp)
  next l =>
    split at h
    · exact absurd h (by simp)
    next hne =>
      injection h with h2
      subst h2
      exact hne

/-- Every record the page handler delivers was successfully materialized
from the url element at hand. -/
theorem entryParser_mem (c : EntryConsumer) (raw : RawEntryElem) (e : SitemapEntry)
    (he : e ∈ (entryParser c (.urlElem raw)).1) : materializeEntry raw = .ok e := by
  simp only [entryParser] at he
  cases hm : materializeEntry raw with
  | error err => rw [hm] at he; simp at he
  | ok entry =>
    rw [hm] at he
    dsimp only at he
    cases hc : c entry with
    | none => rw [hc] at he; simp at he; rw [he]
    | some v => rw [hc] at he; simp at he; rw [he]

/-- Every record the index handler delivers was successfully materialized
from the sitemap element at hand. -/
theorem indexEntryParser_mem (ci : IndexEntryConsumer) (raw : RawIndexElem)
    (e : SitemapIndexEntry) (he : e ∈ (indexEntryParser ci (.sitemapElem raw)).1) :
    materializeIndexEntry raw = .ok e := by
  simp only [indexEntryParser] at he
  cases hm : materializeIndexEntry raw with
  | error err => rw [hm] at he; simp at he
  | ok entry =>
    rw [hm] at he
    dsimp only at he
    cases hc : ci entry with
    | none => rw [hc] at he; simp at he; rw [he]
    | some v => rw [hc] at he; simp at he; rw [he]

/-- A property holding of everything a handler delivers holds of everything
the walk delivers. -/
theorem parseLoopAux_trace {α : Type} (P : α → Prop)
    (handler : XElem → List α × Except GoErr Unit)
    (hh : ∀ el, ∀ a ∈ (handler el).1, P a) :
    ∀ (content : List XElem) (te : Option GoErr),
      ∀ a ∈ (parseLoopAux handler content te).1, P a := by
  intro content
  induction content with
  | nil =>
    intro te a ha
    cases te <;> simp [parseLoopAux] at ha
  | cons el rest ih =>
    intro te a ha
    rw [parseLoopAux] at ha
    cases hres : (handler el) with
    | mk tr res =>
      rw [hres] at ha
      cases res with
      | error e =>
        simp only at ha
        exact hh el a (by rw [hres]; exact ha)
      | ok u =>
        simp only at ha
        rcases List.mem_append.mp ha with hl | hr
        · exact hh el a (by rw [hres]; exact hl)
        · exact ih te a hr

/-- Every record the page handler delivers is validated. -/
theorem entryParser_trace_valid (c : EntryConsumer) :
    ∀ el, ∀ e ∈ (entryParser c el).1,
      e.GetLocation ≠ "" ∧ 0 ≤ e.GetPriority ∧ e.GetPriority ≤ 1 := by
  intro el e he
  cases el with
  | urlElem raw =>
    have h := materializeEntry_ok_props raw e (entryParser_mem c raw e he)
    exact ⟨h.1, h.2.1, h.2.2.1⟩
  | sitemapElem raw => simp [entryParser] at he
  | otherElem n => simp [entryParser] at he

/-- Every record the index handler delivers is validated. -/
theorem indexEntryParser_trace_valid (ci : IndexEntryConsumer) :
    ∀ el, ∀ e ∈ (indexEntryParser ci el).1, e.GetLocation ≠ "" := by
  intro el e he
  cases el with
  | urlElem raw => simp [indexEntryParser] at he
  | sitemapElem raw =>
    exact materializeIndexEntry_ok_props raw e (indexEntryParser_mem ci raw e he)
  | otherElem n => simp [indexEntryParser] at he

/-- Each request makeRequest sends goes through the client it was given, and
it sends at most one. -/
theorem makeRequest_requests (env : Net) (client : ClientConfig) (url ua : String)
    (c : EntryConsumer) :
    (∀ q ∈ (makeRequest env client url ua c).1, q.client = client) ∧
    (makeRequest env client url ua c).1.length ≤ 1 := by
  unfold makeRequest
  cases hn : env.newRequestErr url with
  | some m => simp
  | none =>
    cases hd : env.doResult client url ua with
    | fail e => simp
    | success body => simp

/-- On a non-empty pool, each request the proxied page attempt sends goes
through the proxied page client built around the selected proxy. -/
theorem parseWithProxy_requests (env : Net) (url ua : String) (ps : List String)
    (c : EntryConsumer) (h : ¬ ps.length = 0) :
    ∀ q ∈ (parseWithProxy env url ps ua c).1,
      q.client = proxiedPageClient (selectProxy env.pick ps h) := by
  intro q hq
  unfold parseWithProxy at hq
  simp only [dif_neg h] at hq
  cases hu : env.urlParseErr (selectProxy env.pick ps h) with
  | some m => rw [hu] at hq; simp at hq
  | none =>
    rw [hu] at hq
    exact (makeRequest_requests env (proxiedPageClient (selectProxy env.pick ps h))
      url ua c).1 q hq

/-- On a non-empty pool, the index fetch sends at most one request, always
through the index client built around the selected proxy. -/
theorem parseIndexFromSite_requests (env : Net) (url ua : String) (ps : List String)
    (ci : IndexEntryConsumer) (h : ¬ ps.length = 0) :
    (∀ q ∈ (ParseIndexFromSite env url ps ua ci).1,
        q.client = indexClient (selectProxy env.pick ps h)) ∧
    (ParseIndexFromSite env url ps ua ci).1.length ≤ 1 := by
  unfold ParseIndexFromSite
  simp only [dif_neg h]
  cases hu : env.urlParseErr (selectProxy env.pick ps h) with
  | some m => simp
  | none =>
    cases hn : env.newRequestErr url with
    | some m => simp
    | none =>
      cases hd : env.doResult (indexClient (selectProxy env.pick ps h)) url ua with
      | fail e => simp
      | success body => simp

/-! Claim theorems. -/

/-- C1.  The claim says Parse invokes the consumer once per url element and
succeeds.  In the code, the preliminary ioutil.ReadAll exhausts the reader
before the token walk starts, so on a well-formed one-element document Parse
invokes the consumer zero times (yet still reports success), while the walk
itself, run on the same document without the pre-read, delivers the one
record in document order. -/
theorem c1_parse_delivers_no_entries :
    Parse docA okConsumer = ([], .ok ()) ∧
    parseLoop docA (entryParser okConsumer) = ([plainEntry "https://x/a"], .ok ()) :=
  ⟨rfl, rfl⟩

/-- C2.  The claim says the parse core consumes the input exactly once, with
the token walk observing the full document.  In the code, readAll consumes
the entire two-element document first, and the token walk then runs on the
exhausted stream and observes nothing; walking the same stream directly
would deliver both records. -/
theorem c2_pre_read_starves_walk :
    (readAll docAB).1.1 = docAB.content ∧
    (readAll docAB).2 = { content := [], tailErr := none } ∧
    Parse docAB okConsumer = ([], .ok ()) ∧
    parseLoop docAB (entryParser okConsumer)
      = ([plainEntry "https://x/a", plainEntry "https://x/b"], .ok ()) :=
  ⟨rfl, rfl, rfl, rfl⟩

/-- C3.  The claim says a proxied attempt failing with a (possibly wrapped)
network timeout triggers exactly one direct retry.  In the code, makeRequest
wraps the client.Do failure with fmt.Errorf and a %v verb into a plain
string error; isTimeoutError does not recognize it, so even though the
underlying error is a url.Error wrapping a network timeout (first conjunct),
ParseFromSite returns the wrapped error after the single proxied request,
with no direct attempt (second conjunct); the wrapped string error fails the
timeout test (third conjunct). -/
theorem c3_wrapped_timeout_not_retried :
    isTimeoutError timeoutNet = true ∧
    ParseFromSite envTimeout siteURL [proxyA] uaString okConsumer
      = ([{ client := proxiedPageClient proxyA, url := siteURL, userAgent := uaString }],
          .err (.stringErr "failed to make request: Get: dial tcp: i/o timeout")) ∧
    isTimeoutError (.stringErr "failed to make request: Get: dial tcp: i/o timeout")
      = false :=
  ⟨rfl, rfl, rfl⟩

/-- C4.  The claim says an empty proxy pool skips the proxy attempt and
makes a single direct request.  In the code, both ParseFromSite and
ParseIndexFromSite index into the pool with rand.Intn(len(proxyServers)),
and rand.Intn panics on the argument 0: with an empty pool both calls abort
with a run-time panic before any request is made. -/
theorem c4_empty_pool_panics :
    ParseFromSite envPlain siteURL [] uaString okConsumer
      = ([], .panicked intnPanicMsg) ∧
    ParseIndexFromSite envPlain siteURL [] uaString okIndexConsumer
      = ([], .panicked intnPanicMsg) :=
  ⟨rfl, rfl⟩

/-- C5 counterexample.  The claim says the index-entry fetch performs the
same retrieval algorithm as the page-entry fetch, differing only in the
eventual parse target.  On a network that accepts requests from clients
with a 20 second overall timeout and refuses the rest, the page fetch
succeeds and the index fetch fails at the HTTP layer before any parsing,
on identical URL, pool and User-Agent; the two client configurations also
differ outright. -/
theorem c5_counterexample :
    (ParseFromSite envSplit siteURL [proxyA] uaString okConsumer).2 = .ok ∧
    (ParseIndexFromSite envSplit siteURL [proxyA] uaString okIndexConsumer).2
      = .err (.stringErr "failed to make request: connection refused") ∧
    proxiedPageClient proxyA ≠ indexClient proxyA :=
  ⟨rfl, rfl, by decide⟩

/-- C5 amended.  ParseIndexFromSite repeats ParseFromSite's proxy selection
(same random index into the pool) and sends every request through the
selected proxy, but it sends at most one request (no timeout-triggered
direct fallback) and its client uses a 60 second overall timeout with no
TLS handshake timeout, where the page clients use 20 seconds overall and a
10 second handshake timeout. -/
theorem c5_index_fetch_same_selection_no_fallback :
    ∀ (env : Net) (url ua : String) (ps : List String)
      (c : EntryConsumer) (ci : IndexEntryConsumer) (h : ¬ ps.length = 0),
      (∀ q ∈ (parseWithProxy env url ps ua c).1,
          q.client = proxiedPageClient (selectProxy env.pick ps h)) ∧
      (∀ q ∈ (ParseIndexFromSite env url ps ua ci).1,
          q.client = indexClient (selectProxy env.pick ps h)) ∧
      (ParseIndexFromSite env url ps ua ci).1.length ≤ 1 ∧
      (proxiedPageClient (selectProxy env.pick ps h)).proxy
        = (indexClient (selectProxy env.pick ps h)).proxy ∧
      (proxiedPageClient (selectProxy env.pick ps h)).timeout = 20 ∧
      (indexClient (selectProxy env.pick ps h)).timeout = 60 ∧
      (proxiedPageClient (selectProxy env.pick ps h)).tlsHandshakeTimeout = 10 ∧
      (indexClient (selectProxy env.pick ps h)).tlsHandshakeTimeout = 0 := by
  intro env url ua ps c ci h
  exact ⟨parseWithProxy_requests env url ua ps c h,
    (parseIndexFromSite_requests env url ua ps ci h).1,
    (parseIndexFromSite_requests env url ua ps ci h).2,
    rfl, rfl, rfl, rfl, rfl⟩

/-- C5 witness: the amended statement applied to a concrete network, URL,
one-proxy pool and User-Agent. -/
theorem c5_witness :
    (ParseIndexFromSite envPlain siteURL [proxyA] uaString okIndexConsumer).1.length ≤ 1 :=
  (c5_index_fetch_same_selection_no_fallback envPlain siteURL uaString [proxyA]
    okConsumer okIndexConsumer (by decide)).2.2.1

/-- C6.  The claim says that when the consumer rejects the k-th record, the
parse call makes exactly k consumer invocations and returns the consumer's
error verbatim.  The modelled walk does exactly that (second conjunct: on a
four-record document with a consumer aborting on the third record, three
invocations in document order, the consumer's error returned verbatim), but
Parse, because of the preliminary ReadAll, never invokes the consumer at
all and returns nil (first conjunct). -/
theorem c6_consumer_abort_lost_by_parse :
    Parse docABCD stopAtC = ([], .ok ()) ∧
    parseLoop docABCD (entryParser stopAtC)
      = ([plainEntry "https://x/a", plainEntry "https://x/b", plainEntry "https://x/c"],
          .error (.stringErr "consumer abort")) :=
  ⟨rfl, rfl⟩

/-- C7.  A url element without a priority child materializes to a record
whose priority is 0.5, and that is the record delivered to the consumer. -/
theorem c7_absent_priority_defaults_to_half (raw : RawEntryElem) (c : EntryConsumer)
    (e : SitemapEntry) (habs : raw.priority = none)
    (he : e ∈ (entryParser c (.urlElem raw)).1) : e.GetPriority = 1 / 2 := by
  have h := (materializeEntry_ok_props raw e (entryParser_mem c raw e he)).2.2.2
  rw [habs, Option.getD_none, defaultPriority_eq_half] at h
  exact h

/-- C7 witness: the theorem applied to the minimal url element with loc
https://x/a, whose priority child is absent. -/
theorem c7_witness :
    (urlRaw "https://x/a").priority = none ∧ (plainEntry "https://x/a").GetPriority = 1 / 2 :=
  ⟨rfl, c7_absent_priority_defaults_to_half (urlRaw "https://x/a") okConsumer
    (plainEntry "https://x/a") rfl (by decide)⟩

/-- C8.  Every record the walk delivers to a consumer has a non-empty
location, and every delivered page record has its priority in the interval
from 0 to 1.  Stated for Parse, for the walk run directly on the stream,
and for ParseIndex. -/
theorem c8_emitted_records_validated :
    ∀ (s : ByteStream) (c : EntryConsumer) (ci : IndexEntryConsumer),
      (∀ e ∈ (Parse s c).1,
          e.GetLocation ≠ "" ∧ 0 ≤ e.GetPriority ∧ e.GetPriority ≤ 1) ∧
      (∀ e ∈ (parseLoop s (entryParser c)).1,
          e.GetLocation ≠ "" ∧ 0 ≤ e.GetPriority ∧ e.GetPriority ≤ 1) ∧
      (∀ ie ∈ (ParseIndex s ci).1, ie.GetLocation ≠ "") := by
  intro s c ci
  refine ⟨?_, ?_, ?_⟩
  · intro e he
    have hp : Parse s c = ([], .ok ()) := rfl
    rw [hp] at he
    simp at he
  · exact parseLoopAux_trace _ (entryParser c) (entryParser_trace_valid c)
      s.content s.tailErr
  · exact parseLoopAux_trace _ (indexEntryParser ci) (indexEntryParser_trace_valid ci)
      s.content s.tailErr

/-- C8 witness: the theorem applied to concrete one-record page and index
documents and their delivered records. -/
theorem c8_witness :
    ((plainEntry "https://x/a").GetLocation ≠ "" ∧
      0 ≤ (plainEntry "https://x/a").GetPriority ∧
      (plainEntry "https://x/a").GetPriority ≤ 1) ∧
    (plainIndexEntry "https://x/s1.xml").GetLocation ≠ "" :=
  ⟨(c8_emitted_records_validated docA okConsumer okIndexConsumer).2.1
      (plainEntry "https://x/a") (by decide),
    (c8_emitted_records_validated
      { content := [.sitemapElem (indexRaw "https://x/s1.xml")], tailErr := none }
      okConsumer okIndexConsumer).2.2
      (plainIndexEntry "https://x/s1.xml") (by decide)⟩

/-- C9 counterexample.  The claim says every retrieval-layer client uses a
10 second TLS handshake timeout; the sitemap-index client sets none. -/
theorem c9_counterexample :
    ¬ ((proxiedPageClient proxyA).tlsHandshakeTimeout = 10 ∧
       directPageClient.tlsHandshakeTimeout = 10 ∧
       (indexClient proxyA).tlsHandshakeTimeout = 10) := by
  decide

/-- C9 amended.  The page-sitemap clients (proxied and direct fallback) use
a 10 second TLS handshake timeout and a 20 second overall timeout; the
sitemap-index client uses a 60 second overall timeout and sets no TLS
handshake timeout. -/
theorem c9_timeout_constants :
    ∀ sel : String,
      (proxiedPageClient sel).tlsHandshakeTimeout = 10 ∧
      (proxiedPageClient sel).timeout = 20 ∧
      directPageClient.tlsHandshakeTimeout = 10 ∧
      directPageClient.timeout = 20 ∧
      (indexClient sel).timeout = 60 ∧
      (indexClient sel).tlsHandshakeTimeout = 0 :=
  fun _ => ⟨rfl, rfl, rfl, rfl, rfl, rfl⟩

/-- C10.  The read error of the preliminary full read is discarded: it is
reported by readAll (first conjunct), yet Parse behaves exactly as if the
read had succeeded (second conjunct) and returns success rather than the
pre-read error (third conjunct). -/
theorem c10_pre_read_error_discarded :
    ∀ (content : List XElem) (e : GoErr) (c : EntryConsumer),
      (readAll { content := content, tailErr := some e }).1.2 = some e ∧
      Parse { content := content, tailErr := some e } c
        = Parse { content := content, tailErr := none } c ∧
      (Parse { content := content, tailErr := some e } c).2 = .ok () :=
  fun _ _ _ => ⟨rfl, rfl, rfl⟩

end Sitemap
